import Mathlib

/-!
Verification of the porsmo Pomodoro core (src/pomodoro.rs, src/stopwatch.rs,
src/timer.rs) against its specification.

Modelling conventions:
- `Duration` is a nanosecond count (Rust `std::time::Duration` is a nonnegative
  nanosecond count); `Instant` is an absolute nanosecond timestamp.  All
  operations that call `Instant::now()` in Rust take the current instant as an
  explicit `now` argument.
- The f64 arithmetic of the progress-ratio derivation is modelled exactly over
  the rationals; `as_secs_f64` divides both nanosecond counts by 10^9, which
  cancels in the quotient `elapsed / target`.
- Strings are modelled as lists of Unicode scalar values (`List Char`), with
  Rust's byte-oriented `str::len` and byte slicing expressed through
  `Char.utf8Size`.
-/

namespace Porsmo

/-- Durations in nanoseconds. -/
abbrev Duration := Nat

/-- Absolute timestamps in nanoseconds, standing in for `std::time::Instant`. -/
abbrev Instant := Nat

/-- `Mode` from src/pomodoro.rs (Work is the `#[default]` variant). -/
inductive Mode where
  | Work
  | Break
  | LongBreak
deriving DecidableEq

/-- `PomodoroConfig` from src/pomodoro.rs: the three phase durations. -/
structure PomodoroConfig where
  work_time : Duration
  break_time : Duration
  long_break : Duration
deriving DecidableEq

/-- `PomodoroConfig::current_target` from src/pomodoro.rs. -/
def PomodoroConfig.current_target (c : PomodoroConfig) (mode : Mode) : Duration :=
  match mode with
  | .Work => c.work_time
  | .Break => c.break_time
  | .LongBreak => c.long_break

/-- `Session` from src/pomodoro.rs.  `elapsed_time` models the two-element
array `[Duration; 2]`: the first component is `elapsed_time[0]` (work total),
the second is `elapsed_time[1]` (break total). -/
structure Session where
  mode : Mode
  round : Nat
  elapsed_time : Duration × Duration
deriving DecidableEq

/-- `Session::default` from src/pomodoro.rs: Work mode, round 1, zero totals. -/
def Session.default : Session :=
  { mode := .Work, round := 1, elapsed_time := (0, 0) }

/-- `Session::advance` from src/pomodoro.rs lines 133-151, the phase
transition.  The Rust match arms are, in order: `Mode::Work if round % 4 == 0`,
`Mode::Work`, and `Mode::Break | Mode::LongBreak`. -/
def Session.advance (s : Session) (duration : Duration) : Session :=
  match s.mode with
  | .Work =>
    if s.round % 4 = 0 then
      { s with mode := .LongBreak,
               elapsed_time := (s.elapsed_time.1 + duration, s.elapsed_time.2) }
    else
      { s with mode := .Break,
               elapsed_time := (s.elapsed_time.1 + duration, s.elapsed_time.2) }
  | .Break | .LongBreak =>
    { mode := .Work, round := s.round + 1,
      elapsed_time := (s.elapsed_time.1, s.elapsed_time.2 + duration) }

/-- `Session::next` from src/pomodoro.rs lines 153-155: advance with a zero
duration (the Rust method takes `&self`, so the receiver is not mutated;
value semantics makes that automatic here). -/
def Session.next (s : Session) : Session :=
  s.advance 0

/-- `Stopwatch` from src/stopwatch.rs. -/
structure Stopwatch where
  start_time : Option Instant
  elapsed_before : Duration
deriving DecidableEq

/-- `Stopwatch::new` from src/stopwatch.rs. -/
def Stopwatch.new (start_time : Option Instant) (elapsed_before : Duration) :
    Stopwatch :=
  { start_time := start_time, elapsed_before := elapsed_before }

/-- `Stopwatch::default` from src/stopwatch.rs: a fresh running stopwatch,
started at the current instant with zero accumulated time. -/
def Stopwatch.default (now : Instant) : Stopwatch :=
  { start_time := some now, elapsed_before := 0 }

/-- `Stopwatch::elapsed` from src/stopwatch.rs: `start_time.elapsed()` in Rust
is the wall-clock span from `start_time` to now. -/
def Stopwatch.elapsed (sw : Stopwatch) (now : Instant) : Duration :=
  match sw.start_time with
  | some t => sw.elapsed_before + (now - t)
  | none => sw.elapsed_before

/-- `Stopwatch::started` from src/stopwatch.rs. -/
def Stopwatch.started (sw : Stopwatch) : Bool :=
  match sw.start_time with
  | none => false
  | some _ => true

/-- `Stopwatch::start` from src/stopwatch.rs lines 84-88: a no-op when already
running. -/
def Stopwatch.start (sw : Stopwatch) (now : Instant) : Stopwatch :=
  match sw.start_time with
  | none => { sw with start_time := some now }
  | some _ => sw

/-- `Stopwatch::stop` from src/stopwatch.rs lines 90-95: folds the running span
into `elapsed_before` and clears `start_time`; a no-op when already stopped. -/
def Stopwatch.stop (sw : Stopwatch) (now : Instant) : Stopwatch :=
  match sw.start_time with
  | some t =>
    { start_time := none, elapsed_before := sw.elapsed_before + (now - t) }
  | none => sw

/-- `Stopwatch::toggle` from src/stopwatch.rs lines 97-107. -/
def Stopwatch.toggle (sw : Stopwatch) (now : Instant) : Stopwatch :=
  match sw.start_time with
  | some t =>
    { start_time := none, elapsed_before := sw.elapsed_before + (now - t) }
  | none => { sw with start_time := some now }

/-- Modelled from the spec: the abstract command enum of src/input.rs, which is
not among the provided sources.  Spec section 6 gives the command surface
(Quit, skip request, pause, resume, toggle, commit/enter, confirm yes, confirm
no, reset); the variants are exactly those matched on in src/pomodoro.rs,
src/stopwatch.rs and src/timer.rs. -/
inductive Command where
  | Quit
  | Pause
  | Resume
  | Toggle
  | Enter
  | Skip
  | Yes
  | No
  | Reset
deriving DecidableEq

/-- Modelled from the spec: the `Alerter` of src/alert.rs, which is not among
the provided sources.  Spec sections 3 and 9 describe it as a fire-once flag,
"has alert already fired for the current phase-end", reset exactly when a phase
transition commits. -/
structure Alerter where
  fired : Bool
deriving DecidableEq

/-- Modelled from the spec: `Alerter::reset` re-arms the fire-once flag. -/
def Alerter.reset (_a : Alerter) : Alerter :=
  { fired := false }

/-- `UIMode` from src/pomodoro.rs lines 187-191: the skip-confirmation
sub-state machine. -/
inductive UIMode where
  | Skip (elapsed : Duration)
  | Running (stopwatch : Stopwatch)
deriving DecidableEq

/-- `pomodoro_update` from src/pomodoro.rs lines 261-299.  The mutated
`(alerter, ui_mode, session)` triple is returned; `now` is the instant at
which the Rust code reads `Instant::now()` / `stopwatch.elapsed()`. -/
def pomodoro_update (command : Command) (config : PomodoroConfig)
    (now : Instant) (alerter : Alerter) (ui_mode : UIMode)
    (session : Session) : Alerter × UIMode × Session :=
  match ui_mode with
  | .Skip elapsed =>
    match command with
    | .Quit | .No =>
      (alerter, .Running (Stopwatch.new (some now) elapsed), session)
    | .Enter | .Yes =>
      (alerter.reset, .Running (Stopwatch.default now), session.advance elapsed)
    | _ => (alerter, ui_mode, session)
  | .Running sw =>
    let elapsed := sw.elapsed now
    let target := config.current_target session.mode
    match command with
    | .Enter =>
      if target ≤ elapsed then
        (alerter.reset, .Running (Stopwatch.default now), session.advance elapsed)
      else
        (alerter, ui_mode, session)
    | .Pause => (alerter, .Running (sw.stop now), session)
    | .Resume => (alerter, .Running (sw.start now), session)
    | .Toggle => (alerter, .Running (sw.toggle now), session)
    | .Skip => (alerter, .Skip elapsed, session)
    | .Reset => (alerter, .Running (Stopwatch.default now), session)
    | _ => (alerter, ui_mode, session)

/-- The `Command::Quit` branch of `PomodoroUI::run_ui` (src/pomodoro.rs lines
242-248): the final fold applied to the session just before the loop breaks. -/
def run_ui_quit (now : Instant) (ui_mode : UIMode) (session : Session) :
    Session :=
  match ui_mode with
  | .Skip elapsed => session.advance elapsed
  | .Running sw => session.advance (sw.elapsed now)

/-- The elapsed duration the quit branch of `run_ui` reads: the frozen value in
the Skip sub-state, the stopwatch's elapsed value in the Running sub-state. -/
def displayed_elapsed (now : Instant) (ui_mode : UIMode) : Duration :=
  match ui_mode with
  | .Skip e => e
  | .Running sw => sw.elapsed now

/-- The data of the summary string returned by `run_ui` (src/pomodoro.rs lines
253-257): it is built from `elapsed_time[0]` and `elapsed_time[1]` only. -/
def run_ui_summary (s : Session) : Duration × Duration :=
  s.elapsed_time

/-- `ds.foldl advance s`: a session after a whole sequence of advances. -/
def apply_advances (s : Session) (ds : List Duration) : Session :=
  ds.foldl Session.advance s

/-- Rust `f64::clamp` as called with bounds (0.0, 1.0): below the lower bound
gives the lower bound, above the upper bound gives the upper bound, otherwise
the value itself. -/
def clamp (x lo hi : ℚ) : ℚ :=
  if x < lo then lo else if hi < x then hi else x

/-- The progress ratio computed by `progress_bar` (src/pomodoro.rs lines 15-26
and src/timer.rs lines 16-32) and by the inline rendering derivations:
`elapsed.as_secs_f64() / target.as_secs_f64()` clamped to [0, 1], with ratio 1
when the target is zero.  The f64 quotient is modelled exactly over ℚ. -/
def progress_ratio (elapsed target : Duration) : ℚ :=
  if target = 0 then 1 else clamp ((elapsed : ℚ) / (target : ℚ)) 0 1

/-- Rust `f64::round`: round half away from zero. -/
def rust_round (q : ℚ) : ℤ :=
  if 0 ≤ q then ⌊q + 1 / 2⌋ else -⌊-q + 1 / 2⌋

/-- The Rust format fragment `"\x7bpercent:>3\x7d%"`: the decimal digits of
`percent` right-aligned to width 3, followed by the percent sign. -/
def percent_field (percent : Nat) : List Char :=
  List.replicate (3 - (Nat.toDigits 10 percent).length) ' ' ++
    Nat.toDigits 10 percent ++ ['%']

/-- `progress_bar` from src/pomodoro.rs lines 15-26 (the identical copy in
src/timer.rs lines 16-32 is `#[allow(dead_code)]`), producing the character
sequence of the returned String: `"[" + "█"*filled + "-"*empty + "] " +
percent`.  The f64 cast `as usize` saturates below zero, matching
`Int.toNat`. -/
def progress_bar (elapsed target : Duration) (width : Nat) : List Char :=
  let ratio := progress_ratio elapsed target
  let filled := min (rust_round (ratio * width)).toNat width
  let empty := width - filled
  let percent := (rust_round (ratio * 100)).toNat
  '[' :: (List.replicate filled '█' ++ List.replicate empty '-') ++
    [']', ' '] ++ percent_field percent

/-- Rust `str::len` of a string modelled as its scalar values: the UTF-8 byte
length. -/
def utf8_len (s : List Char) : Nat :=
  (s.map Char.utf8Size).sum

/-- Whether byte index `i` is a character boundary of the UTF-8 encoding of
`s` (index 0 and the total byte length count as boundaries, as in Rust's
`str::is_char_boundary`). -/
def is_boundary : List Char → Nat → Bool
  | _, 0 => true
  | [], _ + 1 => false
  | c :: cs, i + 1 =>
    if c.utf8Size ≤ i + 1 then is_boundary cs (i + 1 - c.utf8Size) else false

/-- The characters covered by the first `n` bytes of the UTF-8 encoding
(exactly the Rust slice `s[..n]` when `n` is a character boundary). -/
def take_bytes : List Char → Nat → List Char
  | _, 0 => []
  | [], _ + 1 => []
  | c :: cs, i + 1 =>
    if c.utf8Size ≤ i + 1 then c :: take_bytes cs (i + 1 - c.utf8Size) else []

/-- `UI_WIDTH` from src/pomodoro.rs line 28. -/
def UI_WIDTH : Nat := 50

/-- `frame_line` from src/pomodoro.rs lines 42-49.  The Rust expression
`s[..UI_WIDTH]` is a byte slice: when `s.len() >= UI_WIDTH` and byte index
`UI_WIDTH` is not a character boundary the slice panics, modelled here as
`none`. -/
def frame_line (s : List Char) : Option (List Char) :=
  if UI_WIDTH ≤ utf8_len s then
    if is_boundary s UI_WIDTH then
      some ('│' :: take_bytes s UI_WIDTH ++ ['│'])
    else
      none
  else
    some ('│' :: (s ++ List.replicate (UI_WIDTH - utf8_len s) ' ') ++ ['│'])

/-- C1: `Session::advance` obeys the fixed transition table — leaving Work goes
to LongBreak when `round % 4 = 0` and to Break otherwise, folding the duration
into the work total with round and break total unchanged; leaving Break or
LongBreak goes to Work, folding the duration into the break total with the work
total unchanged and the round incremented — and, starting from the default
session, eight advances (with arbitrary durations) pass through the phases
Work, Break, Work, Break, Work, Break, Work, LongBreak, Work with rounds
1,1,2,2,3,3,4,4,5. -/
theorem c1_advance_transition_table_and_cycle :
    (∀ (s : Session) (d : Duration),
      (s.mode = .Work → s.round % 4 = 0 →
        (s.advance d).mode = .LongBreak ∧
        (s.advance d).elapsed_time.1 = s.elapsed_time.1 + d ∧
        (s.advance d).elapsed_time.2 = s.elapsed_time.2 ∧
        (s.advance d).round = s.round) ∧
      (s.mode = .Work → s.round % 4 ≠ 0 →
        (s.advance d).mode = .Break ∧
        (s.advance d).elapsed_time.1 = s.elapsed_time.1 + d ∧
        (s.advance d).elapsed_time.2 = s.elapsed_time.2 ∧
        (s.advance d).round = s.round) ∧
      ((s.mode = .Break ∨ s.mode = .LongBreak) →
        (s.advance d).mode = .Work ∧
        (s.advance d).elapsed_time.2 = s.elapsed_time.2 + d ∧
        (s.advance d).elapsed_time.1 = s.elapsed_time.1 ∧
        (s.advance d).round = s.round + 1)) ∧
    (∀ d1 d2 d3 d4 d5 d6 d7 d8 : Duration,
      [(Session.default.mode, Session.default.round),
       ((Session.default.advance d1).mode, (Session.default.advance d1).round),
       (((Session.default.advance d1).advance d2).mode,
        ((Session.default.advance d1).advance d2).round),
       ((((Session.default.advance d1).advance d2).advance d3).mode,
        (((Session.default.advance d1).advance d2).advance d3).round),
       (((((Session.default.advance d1).advance d2).advance d3).advance d4).mode,
        ((((Session.default.advance d1).advance d2).advance d3).advance d4).round),
       ((((((Session.default.advance d1).advance d2).advance d3).advance d4).advance d5).mode,
        (((((Session.default.advance d1).advance d2).advance d3).advance d4).advance d5).round),
       (((((((Session.default.advance d1).advance d2).advance d3).advance d4).advance d5).advance d6).mode,
        ((((((Session.default.advance d1).advance d2).advance d3).advance d4).advance d5).advance d6).round),
       ((((((((Session.default.advance d1).advance d2).advance d3).advance d4).advance d5).advance d6).advance d7).mode,
        (((((((Session.default.advance d1).advance d2).advance d3).advance d4).advance d5).advance d6).advance d7).round),
       (((((((((Session.default.advance d1).advance d2).advance d3).advance d4).advance d5).advance d6).advance d7).advance d8).mode,
        ((((((((Session.default.advance d1).advance d2).advance d3).advance d4).advance d5).advance d6).advance d7).advance d8).round)] =
      [(.Work, 1), (.Break, 1), (.Work, 2), (.Break, 2), (.Work, 3),
       (.Break, 3), (.Work, 4), (.LongBreak, 4), (.Work, 5)]) := by
  constructor
  · intro s d
    refine ⟨?_, ?_, ?_⟩
    · intro hm hr
      cases s with
      | mk mode round et =>
        cases hm
        simp [Session.advance, hr]
    · intro hm hr
      cases s with
      | mk mode round et =>
        cases hm
        simp [Session.advance, hr]
    · intro hm
      cases s with
      | mk mode round et =>
        rcases hm with hm | hm <;> cases hm <;> simp [Session.advance]
  · intro d1 d2 d3 d4 d5 d6 d7 d8
    simp [Session.advance, Session.default]

/-- Witness for C1 at a concrete session: from Work with round 4 an advance by
7 goes to LongBreak keeping round 4, and from Break with round 2 an advance by
5 goes to Work with round 3. -/
theorem c1_witness :
    (({ mode := .Work, round := 4, elapsed_time := (10, 20) } :
        Session).advance 7).mode = .LongBreak ∧
    (({ mode := .Break, round := 2, elapsed_time := (10, 20) } :
        Session).advance 5).round = 3 :=
  ⟨((c1_advance_transition_table_and_cycle.1
      { mode := .Work, round := 4, elapsed_time := (10, 20) } 7).1
      rfl (by decide)).1,
   ((c1_advance_transition_table_and_cycle.1
      { mode := .Break, round := 2, elapsed_time := (10, 20) } 5).2.2
      (Or.inl rfl)).2.2.2⟩

/-- C2 counterexample: the quit fold of `run_ui` does NOT leave the session's
mode and round unchanged.  From a session in Break mode at round 1, quitting
while running with 7 nanoseconds on the stopwatch yields mode Work and round 2:
the fold is `Session::advance`, a real phase transition. -/
theorem c2_counterexample :
    ¬ ((run_ui_quit 0 (.Running { start_time := some 0, elapsed_before := 7 })
          { mode := .Break, round := 1, elapsed_time := (0, 0) }).mode = .Break ∧
       (run_ui_quit 0 (.Running { start_time := some 0, elapsed_before := 7 })
          { mode := .Break, round := 1, elapsed_time := (0, 0) }).round = 1) := by
  decide

/-- C2 (amended): in either UI sub-state, the quit branch of `run_ui` folds the
currently displayed elapsed duration into the accumulator selected by the
current mode (work total when leaving Work, break total when leaving Break or
LongBreak), and the summary is built from the two totals alone.  The fold is
implemented as `Session::advance`, so mode and round do change: mode steps per
the transition table and round increments when leaving Break or LongBreak. -/
theorem c2_quit_summary_fold (now : Instant) (ui_mode : UIMode)
    (session : Session) :
    ((session.mode = .Work →
        (run_ui_quit now ui_mode session).elapsed_time =
          (session.elapsed_time.1 + displayed_elapsed now ui_mode,
           session.elapsed_time.2)) ∧
     (session.mode ≠ .Work →
        (run_ui_quit now ui_mode session).elapsed_time =
          (session.elapsed_time.1,
           session.elapsed_time.2 + displayed_elapsed now ui_mode))) ∧
    run_ui_summary (run_ui_quit now ui_mode session) =
      (run_ui_quit now ui_mode session).elapsed_time ∧
    (session.mode = .Work →
      (run_ui_quit now ui_mode session).round = session.round) ∧
    (session.mode ≠ .Work →
      (run_ui_quit now ui_mode session).round = session.round + 1) := by
  obtain ⟨mode, round, et⟩ := session
  refine ⟨⟨?_, ?_⟩, rfl, ?_, ?_⟩ <;>
    intro hm <;>
    cases ui_mode <;>
    cases mode <;>
    simp_all [run_ui_quit, displayed_elapsed, Session.advance] <;>
    split <;> rfl

/-- Witness for C2 (amended) at a concrete state: quitting from Work, round 1,
totals (3, 4), in the Running sub-state with 7 elapsed, yields totals
(10, 4) and round 1. -/
theorem c2_witness :
    (run_ui_quit 0 (.Running { start_time := some 0, elapsed_before := 7 })
       { mode := .Work, round := 1, elapsed_time := (3, 4) }).elapsed_time =
      (10, 4) ∧
    (run_ui_quit 0 (.Running { start_time := some 0, elapsed_before := 7 })
       { mode := .Work, round := 1, elapsed_time := (3, 4) }).round = 1 :=
  ⟨(c2_quit_summary_fold 0
      (.Running { start_time := some 0, elapsed_before := 7 })
      { mode := .Work, round := 1, elapsed_time := (3, 4) }).1.1 rfl,
   (c2_quit_summary_fold 0
      (.Running { start_time := some 0, elapsed_before := 7 })
      { mode := .Work, round := 1, elapsed_time := (3, 4) }).2.2.1 rfl⟩

/-- C3 counterexample: `Session::next` does NOT leave the round unchanged.
From a session in Break mode at round 1, `next()` has round 2. -/
theorem c3_counterexample :
    ¬ (({ mode := .Break, round := 1, elapsed_time := (0, 0) } :
          Session).next.round = 1) := by
  decide

/-- C3 (amended): `Session::next` returns a session whose mode equals the mode
`Session::advance` would produce for any duration, with both totals unchanged;
the round is unchanged when the current mode is Work, but is incremented when
the current mode is Break or LongBreak (because `next` is `advance` with a zero
duration, which performs the full transition including the round bump).  The
Rust method takes `&self`, so the receiver itself is never mutated. -/
theorem c3_next_previews_mode (s : Session) (d : Duration) :
    s.next.mode = (s.advance d).mode ∧
    s.next.elapsed_time = s.elapsed_time ∧
    (s.mode = .Work → s.next.round = s.round) ∧
    (s.mode ≠ .Work → s.next.round = s.round + 1) := by
  obtain ⟨mode, round, et⟩ := s
  cases mode
  · simp only [Session.next, Session.advance]
    split <;> simp
  · simp [Session.next, Session.advance]
  · simp [Session.next, Session.advance]

/-- Witness for C3 (amended) at concrete sessions: from Work at round 2 the
preview keeps round 2, and from LongBreak at round 4 the preview has round 5. -/
theorem c3_witness :
    ({ mode := .Work, round := 2, elapsed_time := (5, 6) } :
       Session).next.round = 2 ∧
    ({ mode := .LongBreak, round := 4, elapsed_time := (5, 6) } :
       Session).next.round = 5 :=
  ⟨(c3_next_previews_mode
      { mode := .Work, round := 2, elapsed_time := (5, 6) } 0).2.2.1 rfl,
   (c3_next_previews_mode
      { mode := .LongBreak, round := 4, elapsed_time := (5, 6) } 0).2.2.2
      (by decide)⟩

/-- C4 counterexample: confirming a pending skip is NOT always the same as the
commit command in the Running state.  With the short preset (work 1500), the
default session, and zero elapsed, skip-confirm advances the session to Break
while the Running-state Enter is rejected (elapsed 0 < target 1500) and leaves
the session in Work. -/
theorem c4_counterexample :
    (pomodoro_update .Enter
        { work_time := 1500, break_time := 300, long_break := 600 } 0
        { fired := false }
        (.Skip ((Stopwatch.new (some 0) 0).elapsed 0)) Session.default).2.2 ≠
    (pomodoro_update .Enter
        { work_time := 1500, break_time := 300, long_break := 600 } 0
        { fired := false }
        (.Running (Stopwatch.new (some 0) 0)) Session.default).2.2 := by
  decide

/-- C4 (amended): whenever the stopwatch's elapsed value has reached the
current mode's target — i.e. whenever the Running-state commit command is
actually accepted — confirming a pending skip frozen at that elapsed value
(via Enter or Yes) produces exactly the same `(alerter, ui_mode, session)`
triple as the Running-state Enter: alerter reset, session advanced by the
elapsed value, and a fresh zero running stopwatch installed. -/
theorem c4_skip_confirm_equals_commit (config : PomodoroConfig)
    (now : Instant) (alerter : Alerter) (sw : Stopwatch) (session : Session)
    (h : config.current_target session.mode ≤ sw.elapsed now) :
    pomodoro_update .Enter config now alerter (.Skip (sw.elapsed now)) session =
      pomodoro_update .Enter config now alerter (.Running sw) session ∧
    pomodoro_update .Yes config now alerter (.Skip (sw.elapsed now)) session =
      pomodoro_update .Enter config now alerter (.Running sw) session ∧
    pomodoro_update .Enter config now alerter (.Running sw) session =
      (alerter.reset, .Running (Stopwatch.default now),
       session.advance (sw.elapsed now)) := by
  simp [pomodoro_update, h]

/-- Witness for C4 (amended): with the short preset and elapsed exactly 1500 in
Work mode, skip-confirm and Running-state Enter agree. -/
theorem c4_witness :
    pomodoro_update .Enter
        { work_time := 1500, break_time := 300, long_break := 600 } 0
        { fired := true }
        (.Skip ((Stopwatch.new (some 0) 1500).elapsed 0)) Session.default =
      pomodoro_update .Enter
        { work_time := 1500, break_time := 300, long_break := 600 } 0
        { fired := true }
        (.Running (Stopwatch.new (some 0) 1500)) Session.default :=
  (c4_skip_confirm_equals_commit
    { work_time := 1500, break_time := 300, long_break := 600 } 0
    { fired := true } (Stopwatch.new (some 0) 1500) Session.default
    (by decide)).1

/-- C5: a skip request followed by a cancel is a no-op on the session.  The
skip request freezes the stopwatch's elapsed value without touching session or
alerter; the cancel (No) restores the Running sub-state with a running
stopwatch whose accumulated value is the frozen elapsed value, so its elapsed
value at the instant of resumption equals the frozen one — no time gained or
lost, and the session before the request and after the cancel are identical. -/
theorem c5_skip_cancel_roundtrip (config : PomodoroConfig)
    (now1 now2 : Instant) (alerter : Alerter) (sw : Stopwatch)
    (session : Session) :
    pomodoro_update .Skip config now1 alerter (.Running sw) session =
      (alerter, .Skip (sw.elapsed now1), session) ∧
    pomodoro_update .No config now2 alerter (.Skip (sw.elapsed now1)) session =
      (alerter, .Running (Stopwatch.new (some now2) (sw.elapsed now1)),
       session) ∧
    (Stopwatch.new (some now2) (sw.elapsed now1)).elapsed now2 =
      sw.elapsed now1 ∧
    (Stopwatch.new (some now2) (sw.elapsed now1)).started = true := by
  refine ⟨rfl, rfl, ?_, rfl⟩
  simp [Stopwatch.new, Stopwatch.elapsed]

/-- C6: in the Running sub-state, the Enter command commits the phase exactly
when the stopwatch's elapsed value has reached the current mode's target
(resetting the alerter, advancing the session by the elapsed value, and
installing a fresh zero running stopwatch), and is a complete no-op below the
target; the commands not handled by the Running arm — Quit, Yes and No — are
complete no-ops on the whole `(alerter, ui_mode, session)` triple. -/
theorem c6_running_command_dispatch (config : PomodoroConfig) (now : Instant)
    (alerter : Alerter) (sw : Stopwatch) (session : Session) :
    pomodoro_update .Enter config now alerter (.Running sw) session =
      (if config.current_target session.mode ≤ sw.elapsed now then
        (alerter.reset, .Running (Stopwatch.default now),
         session.advance (sw.elapsed now))
      else (alerter, .Running sw, session)) ∧
    pomodoro_update .Quit config now alerter (.Running sw) session =
      (alerter, .Running sw, session) ∧
    pomodoro_update .Yes config now alerter (.Running sw) session =
      (alerter, .Running sw, session) ∧
    pomodoro_update .No config now alerter (.Running sw) session =
      (alerter, .Running sw, session) := by
  refine ⟨?_, rfl, rfl, rfl⟩
  simp only [pomodoro_update]

/-- Helper: one advance grows the sum of the two totals by exactly the folded
duration. -/
lemma advance_total_sum (s : Session) (d : Duration) :
    (s.advance d).elapsed_time.1 + (s.advance d).elapsed_time.2 =
      s.elapsed_time.1 + s.elapsed_time.2 + d := by
  obtain ⟨mode, round, et⟩ := s
  cases mode
  · simp only [Session.advance]
    split <;> simp <;> ring
  · simp [Session.advance]
    ring
  · simp [Session.advance]
    ring

/-- Helper: over any list of folded durations, the sum of the two totals grows
by exactly the sum of the list. -/
lemma apply_advances_total_sum (ds : List Duration) (s : Session) :
    (apply_advances s ds).elapsed_time.1 +
      (apply_advances s ds).elapsed_time.2 =
      s.elapsed_time.1 + s.elapsed_time.2 + ds.sum := by
  induction ds generalizing s with
  | nil => simp [apply_advances]
  | cons d ds ih =>
    have h := ih (s.advance d)
    simp only [apply_advances, List.foldl_cons, List.sum_cons] at h ⊢
    rw [h, advance_total_sum]
    ring

/-- C7: accumulator discipline of `Session::advance` — leaving Work adds the
folded duration to the work total and leaves the break total untouched; leaving
Break or LongBreak adds it to the break total and leaves the work total
untouched; both totals are monotonically non-decreasing; a total strictly
increases only when its mode is the one being left; and over any sequence of
advances from the default session the two totals sum to the sum of all folded
durations, regardless of the mode sequence. -/
theorem c7_accumulator_invariants :
    (∀ (s : Session) (d : Duration), s.mode = .Work →
      (s.advance d).elapsed_time.1 = s.elapsed_time.1 + d ∧
      (s.advance d).elapsed_time.2 = s.elapsed_time.2) ∧
    (∀ (s : Session) (d : Duration), s.mode ≠ .Work →
      (s.advance d).elapsed_time.2 = s.elapsed_time.2 + d ∧
      (s.advance d).elapsed_time.1 = s.elapsed_time.1) ∧
    (∀ (s : Session) (d : Duration),
      s.elapsed_time.1 ≤ (s.advance d).elapsed_time.1 ∧
      s.elapsed_time.2 ≤ (s.advance d).elapsed_time.2) ∧
    (∀ (s : Session) (d : Duration),
      s.elapsed_time.1 < (s.advance d).elapsed_time.1 → s.mode = .Work) ∧
    (∀ (s : Session) (d : Duration),
      s.elapsed_time.2 < (s.advance d).elapsed_time.2 →
        s.mode = .Break ∨ s.mode = .LongBreak) ∧
    (∀ ds : List Duration,
      (apply_advances Session.default ds).elapsed_time.1 +
        (apply_advances Session.default ds).elapsed_time.2 = ds.sum) := by
  refine ⟨?_, ?_, ?_, ?_, ?_, ?_⟩
  · intro s d hm
    obtain ⟨mode, round, et⟩ := s
    cases hm
    constructor <;> (simp only [Session.advance]; split <;> simp)
  · intro s d hm
    obtain ⟨mode, round, et⟩ := s
    cases mode
    · exact absurd rfl hm
    · constructor <;> simp [Session.advance]
    · constructor <;> simp [Session.advance]
  · intro s d
    obtain ⟨mode, round, et⟩ := s
    cases mode
    · constructor <;> (simp only [Session.advance]; split <;> simp)
    · constructor <;> simp [Session.advance]
    · constructor <;> simp [Session.advance]
  · intro s d h
    obtain ⟨mode, round, et⟩ := s
    cases mode
    · rfl
    · exact absurd h (by simp [Session.advance])
    · exact absurd h (by simp [Session.advance])
  · intro s d h
    obtain ⟨mode, round, et⟩ := s
    cases mode
    · exfalso
      simp only [Session.advance] at h
      split at h <;> simp at h
    · exact Or.inl rfl
    · exact Or.inr rfl
  · intro ds
    have h := apply_advances_total_sum ds Session.default
    simpa [Session.default] using h

/-- Witness for C7 at concrete inputs: advancing from Break at round 1 with
totals (3, 4) by 6 gives break total 10 and work total 3, and folding the list
of durations 5, 6, 7 from the default session makes the totals sum to 18. -/
theorem c7_witness :
    (({ mode := .Break, round := 1, elapsed_time := (3, 4) } :
        Session).advance 6).elapsed_time.2 = 10 ∧
    (({ mode := .Break, round := 1, elapsed_time := (3, 4) } :
        Session).advance 6).elapsed_time.1 = 3 ∧
    (apply_advances Session.default [5, 6, 7]).elapsed_time.1 +
      (apply_advances Session.default [5, 6, 7]).elapsed_time.2 = 18 :=
  ⟨(c7_accumulator_invariants.2.1
      { mode := .Break, round := 1, elapsed_time := (3, 4) } 6 (by decide)).1,
   (c7_accumulator_invariants.2.1
      { mode := .Break, round := 1, elapsed_time := (3, 4) } 6 (by decide)).2,
   c7_accumulator_invariants.2.2.2.2.2 [5, 6, 7]⟩

/-- Helper: clamping to [0, 1] lands in [0, 1]. -/
lemma clamp01_bounds (x : ℚ) : 0 ≤ clamp x 0 1 ∧ clamp x 0 1 ≤ 1 := by
  unfold clamp
  split_ifs <;> constructor <;> linarith

/-- Helper: clamping to [0, 1] is monotone. -/
lemma clamp01_mono {x y : ℚ} (h : x ≤ y) : clamp x 0 1 ≤ clamp y 0 1 := by
  unfold clamp
  split_ifs <;> linarith

/-- Helper: clamping a value at least 1 to [0, 1] gives 1. -/
lemma clamp01_eq_one {x : ℚ} (h : 1 ≤ x) : clamp x 0 1 = 1 := by
  unfold clamp
  split_ifs <;> linarith

/-- C8: for every target t > 0 the progress ratio lies in [0, 1], is
monotonically non-decreasing in the elapsed duration, and equals 1 whenever
elapsed ≥ target; for target 0 the ratio is 1 for every elapsed duration (no
division by zero). -/
theorem c8_progress_ratio_bounds (t : Duration) (ht : 0 < t) :
    (∀ e : Duration, 0 ≤ progress_ratio e t ∧ progress_ratio e t ≤ 1) ∧
    (∀ e1 e2 : Duration, e1 ≤ e2 →
      progress_ratio e1 t ≤ progress_ratio e2 t) ∧
    (∀ e : Duration, t ≤ e → progress_ratio e t = 1) ∧
    (∀ e : Duration, progress_ratio e 0 = 1) := by
  have htq : (0 : ℚ) < (t : ℚ) := by exact_mod_cast ht
  have htne : t ≠ 0 := Nat.pos_iff_ne_zero.mp ht
  refine ⟨?_, ?_, ?_, ?_⟩
  · intro e
    simp only [progress_ratio, if_neg htne]
    exact clamp01_bounds _
  · intro e1 e2 he
    have hdiv : (e1 : ℚ) / (t : ℚ) ≤ (e2 : ℚ) / (t : ℚ) := by
      rw [div_le_div_iff₀ htq htq]
      have hc : (e1 : ℚ) ≤ (e2 : ℚ) := by exact_mod_cast he
      nlinarith
    simp only [progress_ratio, if_neg htne]
    exact clamp01_mono hdiv
  · intro e he
    have h1 : (1 : ℚ) ≤ (e : ℚ) / (t : ℚ) := by
      rw [le_div_iff₀ htq]
      have hc : (t : ℚ) ≤ (e : ℚ) := by exact_mod_cast he
      linarith
    simp only [progress_ratio, if_neg htne]
    exact clamp01_eq_one h1
  · intro e
    simp [progress_ratio]

/-- Witness for C8 at target 2: the ratio at elapsed 1 is within bounds, the
ratio at elapsed 3 is 1, and the ratio at target 0 is 1. -/
theorem c8_witness :
    (0 ≤ progress_ratio 1 2 ∧ progress_ratio 1 2 ≤ 1) ∧
    progress_ratio 3 2 = 1 ∧ progress_ratio 5 0 = 1 :=
  ⟨(c8_progress_ratio_bounds 2 (by decide)).1 1,
   (c8_progress_ratio_bounds 2 (by decide)).2.2.1 3 (by decide),
   (c8_progress_ratio_bounds 2 (by decide)).2.2.2 5⟩

/-- C9: `Stopwatch::start` is a no-op on a running stopwatch — in particular
two consecutive starts produce exactly the same state (hence the same elapsed
trajectory) as one — `start` on a stopped stopwatch preserves the accumulated
duration while setting the running-since instant, and `stop` is a no-op on an
already-stopped stopwatch.  All operations are total Lean functions. -/
theorem c9_stopwatch_idempotence :
    (∀ (sw : Stopwatch) (now : Instant), sw.started = true →
      sw.start now = sw) ∧
    (∀ (sw : Stopwatch) (now : Instant), sw.started = false →
      (sw.start now).elapsed_before = sw.elapsed_before ∧
      (sw.start now).start_time = some now ∧ (sw.start now).started = true) ∧
    (∀ (sw : Stopwatch) (now : Instant), sw.started = false →
      sw.stop now = sw) ∧
    (∀ (sw : Stopwatch) (n1 n2 : Instant),
      (sw.start n1).start n2 = sw.start n1) ∧
    (∀ (sw : Stopwatch) (n1 n2 t : Instant),
      ((sw.start n1).start n2).elapsed t = (sw.start n1).elapsed t) := by
  have hrun : ∀ (sw : Stopwatch) (now : Instant), sw.started = true →
      sw.start now = sw := by
    intro sw now h
    obtain ⟨st, eb⟩ := sw
    cases st
    · simp [Stopwatch.started] at h
    · rfl
  have hstop : ∀ (sw : Stopwatch) (n1 n2 : Instant),
      (sw.start n1).start n2 = sw.start n1 := by
    intro sw n1 n2
    obtain ⟨st, eb⟩ := sw
    cases st <;> rfl
  refine ⟨hrun, ?_, ?_, hstop, ?_⟩
  · intro sw now h
    obtain ⟨st, eb⟩ := sw
    cases st
    · exact ⟨rfl, rfl, rfl⟩
    · simp [Stopwatch.started] at h
  · intro sw now h
    obtain ⟨st, eb⟩ := sw
    cases st
    · rfl
    · simp [Stopwatch.started] at h
  · intro sw n1 n2 t
    rw [hstop]

/-- Witness for C9 at concrete stopwatches: starting an already-running
stopwatch leaves it unchanged, and starting a stopped one with 5 accumulated
keeps the accumulated value. -/
theorem c9_witness :
    (Stopwatch.new (some 2) 5).start 9 = Stopwatch.new (some 2) 5 ∧
    ((Stopwatch.new none 5).start 9).elapsed_before = 5 :=
  ⟨c9_stopwatch_idempotence.1 (Stopwatch.new (some 2) 5) 9 rfl,
   (c9_stopwatch_idempotence.2.1 (Stopwatch.new none 5) 9 rfl).1⟩

/-- Helper: the progress ratio of a full bar (elapsed = target) is 1, for any
target including zero. -/
lemma progress_ratio_self (t : Duration) : progress_ratio t t = 1 := by
  by_cases ht : t = 0
  · simp [progress_ratio, ht]
  · have htq : ((t : ℚ)) ≠ 0 := Nat.cast_ne_zero.mpr ht
    simp only [progress_ratio, if_neg ht, div_self htq]
    norm_num [clamp]

/-- Helper: rounding 1 * n for a natural n gives back n. -/
lemma rust_round_one_mul_cast (n : Nat) :
    (rust_round (1 * (n : ℚ))).toNat = n := by
  have h0 : (0 : ℚ) ≤ 1 * (n : ℚ) := by positivity
  have hf : ⌊(1 * (n : ℚ)) + 1 / 2⌋ = (n : ℤ) := by
    rw [Int.floor_eq_iff]
    constructor
    · push_cast
      linarith
    · push_cast
      linarith
  rw [rust_round, if_pos h0, hf]
  simp

/-- Helper: rounding 1 * 100 gives 100. -/
lemma rust_round_one_mul_hundred : (rust_round ((1 : ℚ) * 100)).toNat = 100 := by
  simpa using rust_round_one_mul_cast 100

/-- Helper: the fully filled 30-wide progress bar, character by character. -/
lemma progress_bar_full (t : Duration) :
    progress_bar t t 30 =
      '[' :: (List.replicate 30 '█' ++ List.replicate 0 '-') ++
        [']', ' '] ++ percent_field 100 := by
  simp only [progress_bar, progress_ratio_self, rust_round_one_mul_cast,
    rust_round_one_mul_hundred]
  decide

/-- C10: the overrun rendering path is not total.  For every target, the fully
filled bar `progress_bar target target 30` rendered at src/pomodoro.rs line 499
is 97 bytes long (thirty 3-byte '█' characters plus seven ASCII bytes), byte
index 50 is not a character boundary, and therefore `frame_line` on it reaches
the byte-slice panic branch (modelled as `none`): every overrun-state redraw
panics. -/
theorem c10_overrun_frame_line_panics (t : Duration) :
    utf8_len (progress_bar t t 30) = 97 ∧
    is_boundary (progress_bar t t 30) UI_WIDTH = false ∧
    frame_line (progress_bar t t 30) = none := by
  rw [progress_bar_full]
  refine ⟨by decide, by decide, by decide⟩

end Porsmo
